import Mathlib

/-!
Shallow embedding of `src/lib/withHotKeys.js` from the react-hotkeys
repository, together with proofs about the higher-order component
(`withHotKeys`) it exports.

The file models:

* JS runtime values (`JSVal`), with object identity: a JS object is
  `JSVal.vobj addr fields` where `addr` is its heap address.  Two object
  values denote the same JS reference exactly when their addresses agree;
  code that copies an object (which `withHotKeys.js` never does) would have
  to allocate a fresh address.
* Property bags (`JSObj`) as association lists with JavaScript
  object-literal semantics: later assignments overwrite earlier ones, so
  lookup takes the last matching entry.  Spreading (`...x`) appends the
  spread fields after the literal entries, which is exactly how the
  override-wins merge in `render` arises.
* The `HotKeysWrapper` class produced by the factory: its constructor,
  `componentDidMount`, `_setRef` and `render` methods, and the
  framework-driven lifecycle (construct, ref attachment, post-mount
  activation, re-renders) as an explicit operation list.

Property reads (`x.hotKeyHandlers`) follow JS semantics: reading a property
off `null` or `undefined` throws a `TypeError`; reading a missing property
off an object yields `undefined`.
-/

set_option autoImplicit false

namespace WithHotKeys

/-- JS runtime values as used by `withHotKeys.js`.  Objects (including
functions and component instances) carry a heap address `addr`, so value
equality of `vobj` coincides with JS reference equality; the embedding
never re-allocates, mirroring the source, which never copies an object. -/
inductive JSVal where
  /-- the JS `undefined` value -/
  | undefined : JSVal
  /-- the JS `null` value -/
  | null : JSVal
  /-- a primitive string -/
  | vstr : String → JSVal
  /-- an object reference: heap address plus its own enumerable fields -/
  | vobj : Nat → List (String × JSVal) → JSVal

/-- A property bag (the fields of an object literal), in assignment order. -/
abbrev JSObj : Type := List (String × JSVal)

/-- The errors this mechanism can raise at runtime.  The only one reachable
in `withHotKeys.js` is the `TypeError` from dereferencing a null/undefined
`this._ref` in `componentDidMount`. -/
inductive JSError where
  | typeError : JSError

/-- Keys of a property bag, in assignment order. -/
def keysOf (o : JSObj) : List String := o.map Prod.fst

/-- Value of property `k` in a bag built by an object literal: the last
assignment wins, as in JavaScript.  `none` means the key is absent. -/
def lookupProp (o : JSObj) (k : String) : Option JSVal :=
  (o.reverse.find? (fun p => p.1 == k)).map Prod.snd

/-- Reference equality (`===` on objects): two object values are the same
reference exactly when their heap addresses agree. -/
def JSVal.refEq : JSVal → JSVal → Prop
  | .vobj a _, .vobj b _ => a = b
  | _, _ => False

/-- Fields contributed by a JS object spread `{...v}`: an object spreads its
own enumerable fields, a string spreads its indexed characters, and
`undefined`/`null` spread nothing (so an absent `componentProps` argument is
harmless). -/
def jsSpread : JSVal → JSObj
  | .vobj _ fields => fields
  | .vstr s => (List.range s.length).zip (s.data.map (fun c => JSVal.vstr (String.mk [c])))
      |>.map (fun p => (toString p.1, p.2))
  | _ => []

/-- Property read `v[k]` with JS semantics: throws `TypeError` on
`null`/`undefined`, yields `undefined` for a missing key on an object, and
yields `undefined` for (non-index) keys of a string. -/
def JSVal.getProp : JSVal → String → Except JSError JSVal
  | .undefined, _ => .error .typeError
  | .null, _ => .error .typeError
  | .vstr _, _ => .ok .undefined
  | .vobj _ fields, k => .ok ((lookupProp fields k).getD .undefined)

/-- The mode string the wrapper passes as the dispatch unit's `component`
property (`"document-fragment"`, the non-visual container). -/
def documentFragment : JSVal := JSVal.vstr "document-fragment"

/-- The internally computed part of the dispatch unit's props: the literal
entries `keyMap`, `handlers`, `component` written before the spread. -/
def internalDispatchProps (keyMap handlers : JSVal) : JSObj :=
  [("keyMap", keyMap), ("handlers", handlers), ("component", documentFragment)]

/-- The props object `render` builds for the `<HotKeys>` dispatch unit:
`{ keyMap, handlers, component: "document-fragment", ...componentProps }`.
The spread entries come last, so on a key collision the `componentProps`
assignment overwrites the internally computed one. -/
def hotKeysProps (keyMap handlers componentProps : JSVal) : JSObj :=
  internalDispatchProps keyMap handlers ++ jsSpread componentProps

/-- The wrapper class returned by `withHotKeys(keyMap, componentProps)(Component)`:
a closure over the factory arguments and the target component type
(identified by an opaque id).  Nothing is validated or copied. -/
structure WrapperClass where
  keyMap : JSVal
  componentProps : JSVal
  target : Nat

/-- The composition factory itself:
`const withHotKeys = (keyMap, componentProps) => ((Component) => class ...)`.
It is a pure closure former: defined for every input, it performs no
side effect and rejects nothing. -/
def withHotKeys (keyMap componentProps : JSVal) : Nat → WrapperClass :=
  fun component => ⟨keyMap, componentProps, component⟩

/-- An instance of the wrapper class: `this.props`, the bound `_setRef`
callback (a function object allocated once, in the constructor), the single
piece of state `this.state.handlers`, and the instance field `this._ref`. -/
structure HotKeysWrapper where
  cls : WrapperClass
  props : JSObj
  setRefCb : JSVal
  stateHandlers : JSVal
  ref : JSVal

/-- The constructor: binds `_setRef` (allocating the bound function at
address `cbAddr`) and sets `this.state = { handlers: {} }`, allocating the
fresh empty object at address `hAddr`.  `this._ref` starts out unassigned
(`undefined`). -/
def HotKeysWrapper.construct (cls : WrapperClass) (callerProps : JSObj)
    (cbAddr hAddr : Nat) : HotKeysWrapper :=
  { cls := cls
    props := callerProps
    setRefCb := .vobj cbAddr []
    stateHandlers := .vobj hAddr []
    ref := .undefined }

/-- the method `_setRef(node) { this._ref = node; }` -/
def HotKeysWrapper.setRef (w : HotKeysWrapper) (node : JSVal) : HotKeysWrapper :=
  { w with ref := node }

/-- the method
`componentDidMount() { this.setState({handlers: this._ref.hotKeyHandlers}); }`:
dereferences `this._ref` with no guard, then commits the read value (which
is `undefined` when the target declares no `hotKeyHandlers`) into state. -/
def HotKeysWrapper.componentDidMount (w : HotKeysWrapper) :
    Except JSError HotKeysWrapper :=
  match w.ref.getProp "hotKeyHandlers" with
  | .error e => .error e
  | .ok h => .ok { w with stateHandlers := h }

/-- What one render pass emits: the props given to the `<HotKeys>` dispatch
unit, and the JSX attributes given to the wrapped `<Component>` (the ref
callback followed by the spread of `this.props`). -/
structure RenderOutput where
  dispatchProps : JSObj
  childProps : JSObj

/-- the method `render()`: builds the dispatch props from the closed-over
factory arguments and the current state, and forwards `this.props` to the
target after the `ref={this._setRef}` attribute. -/
def HotKeysWrapper.render (w : HotKeysWrapper) : RenderOutput :=
  { dispatchProps := hotKeysProps w.cls.keyMap w.stateHandlers w.cls.componentProps
    childProps := ("ref", w.setRefCb) :: w.props }

/-- The entry points the React framework can invoke on a mounted wrapper
instance.  These are exactly the methods the class defines (the class
declares no other lifecycle hook). -/
inductive WrapperOp where
  /-- React invokes the ref callback with the mounted target instance
  (or `null`) -/
  | refCallback : JSVal → WrapperOp
  /-- the post-mount lifecycle call (the activation point) -/
  | didMount : WrapperOp
  /-- a parent-driven render pass -/
  | parentRender : WrapperOp

/-- Result of one framework call: the updated instance and how many
re-renders the call scheduled through `setState`. -/
structure StepOut where
  w : HotKeysWrapper
  setStateCalls : Nat

/-- One framework call on the instance.  Only `componentDidMount` calls
`setState` (exactly once, when the ref dereference does not throw); the ref
callback and a render pass touch neither the state nor the schedule. -/
def step (w : HotKeysWrapper) : WrapperOp → Except JSError StepOut
  | .refCallback node => .ok ⟨w.setRef node, 0⟩
  | .didMount =>
      match w.componentDidMount with
      | .error e => .error e
      | .ok w2 => .ok ⟨w2, 1⟩
  | .parentRender => .ok ⟨w, 0⟩

/-- Run a sequence of framework calls, accumulating the number of
`setState`-scheduled re-renders. -/
def runOps (w : HotKeysWrapper) : List WrapperOp → Except JSError (HotKeysWrapper × Nat)
  | [] => .ok (w, 0)
  | op :: ops =>
      match step w op with
      | .error e => .error e
      | .ok out =>
          match runOps out.w ops with
          | .error e => .error e
          | .ok (wEnd, n) => .ok (wEnd, out.setStateCalls + n)

/-- The framework-driven life of one instance after the initial render: the
ref callback fires with the mounted target, `componentDidMount` runs once,
and then `n` parent-driven render passes follow.  (React guarantees the
post-mount hook runs exactly once per instance; the re-render scheduled by
its `setState` is one of the subsequent render passes.) -/
def reactLifecycle (node : JSVal) (n : Nat) : List WrapperOp :=
  [.refCallback node, .didMount] ++ List.replicate n .parentRender

/-! ### Lemmas about property lookup -/

theorem lookupProp_append (a b : JSObj) (k : String) :
    lookupProp (a ++ b) k = (lookupProp b k).or (lookupProp a k) := by
  unfold lookupProp
  rw [List.reverse_append, List.find?_append]
  cases hb : List.find? (fun p => p.1 == k) b.reverse <;> simp [hb, Option.or]

theorem lookupProp_eq_none (o : JSObj) (k : String) :
    lookupProp o k = none ↔ k ∉ keysOf o := by
  unfold lookupProp keysOf
  rw [Option.map_eq_none', List.find?_eq_none]
  simp only [List.mem_reverse, beq_iff_eq, List.mem_map, Prod.exists]
  constructor
  · intro h hk
    obtain ⟨x, y, hxy, hx⟩ := hk
    exact h (x, y) hxy hx
  · intro h p hp hpk
    exact h ⟨p.1, p.2, hp, hpk⟩

theorem lookupProp_append_right (a b : JSObj) (k : String) (h : k ∈ keysOf b) :
    lookupProp (a ++ b) k = lookupProp b k := by
  rw [lookupProp_append]
  cases hb : lookupProp b k with
  | none => exact absurd h ((lookupProp_eq_none b k).mp hb)
  | some v => simp [Option.or]

theorem lookupProp_append_left (a b : JSObj) (k : String) (h : k ∉ keysOf b) :
    lookupProp (a ++ b) k = lookupProp a k := by
  rw [lookupProp_append, (lookupProp_eq_none b k).mpr h]
  simp [Option.or]

/-! ### Lemmas about the wrapper's methods and lifecycle -/

theorem step_refCallback (w : HotKeysWrapper) (node : JSVal) :
    step w (.refCallback node) = .ok ⟨w.setRef node, 0⟩ := rfl

theorem step_parentRender (w : HotKeysWrapper) :
    step w .parentRender = .ok ⟨w, 0⟩ := rfl

theorem componentDidMount_obj (w : HotKeysWrapper) (a : Nat) (fs : JSObj)
    (h : w.ref = .vobj a fs) :
    w.componentDidMount =
      .ok { w with stateHandlers := (lookupProp fs "hotKeyHandlers").getD .undefined } := by
  simp [HotKeysWrapper.componentDidMount, h, JSVal.getProp]

theorem step_preserves_handlers (w : HotKeysWrapper) (op : WrapperOp) (out : StepOut)
    (hop : op ≠ .didMount) (h : step w op = .ok out) :
    out.w.stateHandlers = w.stateHandlers := by
  cases op with
  | refCallback node =>
      simp [step] at h
      rw [← h]
      rfl
  | didMount => exact absurd rfl hop
  | parentRender =>
      simp [step] at h
      rw [← h]

theorem runOps_replicate_parentRender (w : HotKeysWrapper) (n : Nat) :
    runOps w (List.replicate n .parentRender) = .ok (w, 0) := by
  induction n with
  | zero => rfl
  | succ m ih => rw [List.replicate_succ]; simp [runOps, step, ih]

theorem runOps_reactLifecycle (w : HotKeysWrapper) (a : Nat) (fs : JSObj) (n : Nat) :
    runOps w (reactLifecycle (.vobj a fs) n) =
      .ok ({ w with
               ref := .vobj a fs,
               stateHandlers := (lookupProp fs "hotKeyHandlers").getD .undefined }, 1) := by
  simp [reactLifecycle, runOps, step, HotKeysWrapper.setRef,
        HotKeysWrapper.componentDidMount, JSVal.getProp, runOps_replicate_parentRender]

theorem runOps_reactLifecycle_null (w : HotKeysWrapper) (n : Nat) :
    runOps w (reactLifecycle .null n) = .error .typeError := by
  simp [reactLifecycle, runOps, step, HotKeysWrapper.setRef,
        HotKeysWrapper.componentDidMount, JSVal.getProp]

/-! ### Claim theorems -/

/-- C1: for every render of the wrapper, the props object passed to the
dispatch unit is the ordered merge of the internal entries
`{ keyMap, handlers: state.handlers, component: "document-fragment" }` with
`componentProps` applied last: every key present in `componentProps`
(including `keyMap`, `handlers` and `component`) silently takes the
`componentProps` value, every key absent from it keeps the internally
computed value, and an absent (`undefined`) `componentProps` leaves exactly
the internal entries. -/
theorem render_dispatchProps_merge (w : HotKeysWrapper) (k : String) (a : Nat) (cf : JSObj) :
    w.render.dispatchProps =
        internalDispatchProps w.cls.keyMap w.stateHandlers ++ jsSpread w.cls.componentProps
  ∧ (w.cls.componentProps = .vobj a cf → k ∈ keysOf cf →
      lookupProp w.render.dispatchProps k = lookupProp cf k)
  ∧ (w.cls.componentProps = .vobj a cf → k ∉ keysOf cf →
      lookupProp w.render.dispatchProps k =
        lookupProp (internalDispatchProps w.cls.keyMap w.stateHandlers) k)
  ∧ (w.cls.componentProps = .undefined →
      w.render.dispatchProps = internalDispatchProps w.cls.keyMap w.stateHandlers) := by
  refine ⟨rfl, ?_, ?_, ?_⟩
  · intro hcp hk
    have hd : w.render.dispatchProps =
        internalDispatchProps w.cls.keyMap w.stateHandlers ++ cf := by
      simp [HotKeysWrapper.render, hotKeysProps, hcp, jsSpread]
    rw [hd]
    exact lookupProp_append_right _ _ _ hk
  · intro hcp hk
    have hd : w.render.dispatchProps =
        internalDispatchProps w.cls.keyMap w.stateHandlers ++ cf := by
      simp [HotKeysWrapper.render, hotKeysProps, hcp, jsSpread]
    rw [hd]
    exact lookupProp_append_left _ _ _ hk
  · intro hcp
    simp [HotKeysWrapper.render, hotKeysProps, hcp, jsSpread]

/-- Witness for C1: with `componentProps = {component: "span"}` the override
wins on the colliding key `component`, while the absent key `keyMap` keeps
the internal value. -/
theorem render_dispatchProps_merge_witness :
    lookupProp (HotKeysWrapper.render
        (HotKeysWrapper.construct ⟨.vstr "down", .vobj 5 [("component", .vstr "span")], 0⟩
          [] 1 2)).dispatchProps "component" = some (.vstr "span")
  ∧ lookupProp (HotKeysWrapper.render
        (HotKeysWrapper.construct ⟨.vstr "down", .vobj 5 [("component", .vstr "span")], 0⟩
          [] 1 2)).dispatchProps "keyMap" = some (.vstr "down") := by
  constructor
  · rw [(render_dispatchProps_merge _ "component" 5
        [("component", .vstr "span")]).2.1 rfl (by decide)]
    rfl
  · rw [(render_dispatchProps_merge _ "keyMap" 5
        [("component", .vstr "span")]).2.2.1 rfl (by decide)]
    rfl

/-- C5: on every render the target receives the internally supplied
handle-capture callback plus every key/value pair of the caller's props,
forwarded without modification, renaming or filtering; no other key is
added and none is removed. -/
theorem render_forwards_caller_props (w : HotKeysWrapper) (k : String) :
    w.render.childProps = ("ref", w.setRefCb) :: w.props
  ∧ (k ∈ keysOf w.props → lookupProp w.render.childProps k = lookupProp w.props k)
  ∧ (k ∉ keysOf w.props → k ≠ "ref" → lookupProp w.render.childProps k = none)
  ∧ ("ref" ∉ keysOf w.props → lookupProp w.render.childProps "ref" = some w.setRefCb) := by
  have hch : w.render.childProps = [("ref", w.setRefCb)] ++ w.props := rfl
  refine ⟨rfl, ?_, ?_, ?_⟩
  · intro hk
    rw [hch]
    exact lookupProp_append_right _ _ _ hk
  · intro hk hne
    rw [hch, lookupProp_append_left _ _ _ hk]
    have hb : (("ref" : String) == k) = false := beq_eq_false_iff_ne.mpr (Ne.symm hne)
    simp [lookupProp, List.find?, hb]
  · intro hk
    rw [hch, lookupProp_append_left _ _ _ hk]
    rfl

/-- Witness for C5: a caller prop `id: "x"` reaches the target unchanged,
an unrelated key is absent, and the ref callback is supplied. -/
theorem render_forwards_caller_props_witness :
    lookupProp (HotKeysWrapper.render
        (HotKeysWrapper.construct ⟨.undefined, .undefined, 0⟩
          [("id", .vstr "x")] 1 2)).childProps "id" = some (.vstr "x")
  ∧ lookupProp (HotKeysWrapper.render
        (HotKeysWrapper.construct ⟨.undefined, .undefined, 0⟩
          [("id", .vstr "x")] 1 2)).childProps "other" = none
  ∧ lookupProp (HotKeysWrapper.render
        (HotKeysWrapper.construct ⟨.undefined, .undefined, 0⟩
          [("id", .vstr "x")] 1 2)).childProps "ref" = some (.vobj 1 []) := by
  refine ⟨?_, ?_, ?_⟩
  · rw [(render_forwards_caller_props _ "id").2.1 (by decide)]
    rfl
  · exact (render_forwards_caller_props _ "other").2.2.1 (by decide) (by decide)
  · exact (render_forwards_caller_props _ "ref").2.2.2 (by decide)

/-- C8: the composition factory is purely definitional: for every input
(valid or not, `componentProps` present or `undefined`) it merely closes
over its arguments unchanged and performs no validation or side effect;
failures arise only later in the instance lifecycle, e.g. the unguarded
ref dereference at the activation point. -/
theorem withHotKeys_purely_definitional (km cp : JSVal) (c : Nat)
    (callerProps : JSObj) (cbA hA : Nat) :
    withHotKeys km cp c = ⟨km, cp, c⟩
  ∧ (HotKeysWrapper.construct (withHotKeys km cp c) callerProps cbA hA).cls = ⟨km, cp, c⟩
  ∧ (HotKeysWrapper.construct (withHotKeys km cp c) callerProps cbA hA).stateHandlers
      = .vobj hA []
  ∧ (HotKeysWrapper.construct (withHotKeys km cp c) callerProps cbA hA).componentDidMount
      = .error .typeError :=
  ⟨rfl, rfl, rfl, rfl⟩

/-- C2: `state.handlers` is the fresh empty mapping at construction, is
written only by the wrapper's own activation step (`componentDidMount`) —
no other operation of the class writes it — and along the framework
lifecycle with any number of further parent-driven renders it still holds
exactly the value captured at activation. -/
theorem handlers_mutated_once (cls : WrapperClass) (callerProps : JSObj)
    (cbA hA a : Nat) (fs : JSObj) (n : Nat) :
    (HotKeysWrapper.construct cls callerProps cbA hA).stateHandlers = .vobj hA []
  ∧ (∀ w out op, op ≠ WrapperOp.didMount → step w op = .ok out →
      out.w.stateHandlers = w.stateHandlers)
  ∧ runOps (HotKeysWrapper.construct cls callerProps cbA hA)
        (reactLifecycle (.vobj a fs) n) =
      .ok ({ HotKeysWrapper.construct cls callerProps cbA hA with
               ref := .vobj a fs,
               stateHandlers := (lookupProp fs "hotKeyHandlers").getD .undefined }, 1) := by
  refine ⟨rfl, ?_, runOps_reactLifecycle _ a fs n⟩
  intro w out op hop h
  exact step_preserves_handlers w op out hop h

/-- Witness for C2: the ref callback (a non-activation operation) leaves the
handlers state untouched on a concrete instance. -/
theorem handlers_mutated_once_witness :
    ((HotKeysWrapper.construct ⟨.undefined, .undefined, 0⟩ [] 1 2).setRef
        (.vobj 3 [])).stateHandlers
      = (HotKeysWrapper.construct ⟨.undefined, .undefined, 0⟩ [] 1 2).stateHandlers :=
  (handlers_mutated_once ⟨.undefined, .undefined, 0⟩ [] 1 2 3 [] 0).2.1 _
    ⟨(HotKeysWrapper.construct ⟨.undefined, .undefined, 0⟩ [] 1 2).setRef (.vobj 3 []), 0⟩
    (.refCallback (.vobj 3 [])) (fun h => WrapperOp.noConfusion h) rfl

/-- C4: the activation commit schedules exactly one re-render:
`componentDidMount` performs one `setState` whenever it completes, a
parent-driven render performs none and changes nothing (so no activation
happens there), and across the whole framework lifecycle — one activation
plus any number of parent renders — the total of scheduled re-renders is
exactly one. -/
theorem activation_schedules_one_render (cls : WrapperClass) (callerProps : JSObj)
    (cbA hA a : Nat) (fs : JSObj) (n : Nat) :
    (∀ w out, step w .didMount = .ok out → out.setStateCalls = 1)
  ∧ (∀ w out, step w .parentRender = .ok out → out.setStateCalls = 0 ∧ out.w = w)
  ∧ (∃ wEnd, runOps (HotKeysWrapper.construct cls callerProps cbA hA)
        (reactLifecycle (.vobj a fs) n) = .ok (wEnd, 1)) := by
  refine ⟨?_, ?_, ⟨_, runOps_reactLifecycle _ a fs n⟩⟩
  · intro w out h
    unfold step at h
    revert h
    cases w.componentDidMount <;> intro h
    · exact Except.noConfusion h
    · injection h with h2
      rw [← h2]
  · intro w out h
    simp [step] at h
    exact ⟨by rw [← h], by rw [← h]⟩

/-- Witness for C4: on a concrete instance the activation step schedules one
re-render and a parent render schedules none. -/
theorem activation_schedules_one_render_witness :
    (StepOut.mk { HotKeysWrapper.construct ⟨.undefined, .undefined, 0⟩ [] 1 2 with
                    ref := .vobj 3 [], stateHandlers := .undefined } 1).setStateCalls = 1
  ∧ (StepOut.mk (HotKeysWrapper.construct ⟨.undefined, .undefined, 0⟩ [] 1 2)
        0).setStateCalls = 0 :=
  ⟨(activation_schedules_one_render ⟨.undefined, .undefined, 0⟩ [] 1 2 3 [] 0).1
      ((HotKeysWrapper.construct ⟨.undefined, .undefined, 0⟩ [] 1 2).setRef (.vobj 3 [])) _ rfl,
   ((activation_schedules_one_render ⟨.undefined, .undefined, 0⟩ [] 1 2 3 [] 0).2.1
      (HotKeysWrapper.construct ⟨.undefined, .undefined, 0⟩ [] 1 2) _ rfl).1⟩

/-- C3: when the target declares a non-empty handler map, after activation
the `handlers` value the wrapper passes to the dispatch unit is the very
object the target declared — the same heap reference, not a copy or a
transformed mapping. -/
theorem handlers_reference_equal (km : JSVal) (c : Nat) (callerProps : JSObj)
    (cbA hA a ha : Nat) (fs hfs : JSObj) (n : Nat)
    (hdecl : lookupProp fs "hotKeyHandlers" = some (.vobj ha hfs))
    (_hne : hfs ≠ []) :
    runOps (HotKeysWrapper.construct ⟨km, .undefined, c⟩ callerProps cbA hA)
        (reactLifecycle (.vobj a fs) n) =
      .ok ({ HotKeysWrapper.construct ⟨km, .undefined, c⟩ callerProps cbA hA with
               ref := .vobj a fs, stateHandlers := .vobj ha hfs }, 1)
  ∧ lookupProp (HotKeysWrapper.render
        { HotKeysWrapper.construct ⟨km, .undefined, c⟩ callerProps cbA hA with
            ref := .vobj a fs, stateHandlers := .vobj ha hfs }).dispatchProps "handlers"
      = some (.vobj ha hfs)
  ∧ JSVal.refEq ((lookupProp (HotKeysWrapper.render
        { HotKeysWrapper.construct ⟨km, .undefined, c⟩ callerProps cbA hA with
            ref := .vobj a fs, stateHandlers := .vobj ha hfs }).dispatchProps
          "handlers").getD .undefined)
      (.vobj ha hfs) := by
  refine ⟨?_, rfl, rfl⟩
  rw [runOps_reactLifecycle _ a fs n, hdecl]
  rfl

/-- Witness for C3: a target declaring `hotKeyHandlers = {a: f}` (the map at
heap address 4, the handler function at address 9). -/
theorem handlers_reference_equal_witness :
    lookupProp (HotKeysWrapper.render
        { HotKeysWrapper.construct ⟨.undefined, .undefined, 0⟩ [] 1 2 with
            ref := .vobj 3 [("hotKeyHandlers", .vobj 4 [("a", .vobj 9 [])])],
            stateHandlers := .vobj 4 [("a", .vobj 9 [])] }).dispatchProps "handlers"
      = some (.vobj 4 [("a", .vobj 9 [])]) :=
  (handlers_reference_equal .undefined 0 [] 1 2 3 4
      [("hotKeyHandlers", .vobj 4 [("a", .vobj 9 [])])] [("a", .vobj 9 [])] 0
      rfl (List.cons_ne_nil _ _)).2.1

/-- C6: when the target declares no `hotKeyHandlers` property, activation
raises no explicit error; the captured value is `undefined` — not an empty
mapping — and is forwarded as-is to the dispatch unit as `handlers`. -/
theorem missing_handlers_undefined (km : JSVal) (c : Nat) (callerProps : JSObj)
    (cbA hA a : Nat) (fs : JSObj) (n : Nat)
    (hmiss : "hotKeyHandlers" ∉ keysOf fs) :
    runOps (HotKeysWrapper.construct ⟨km, .undefined, c⟩ callerProps cbA hA)
        (reactLifecycle (.vobj a fs) n) =
      .ok ({ HotKeysWrapper.construct ⟨km, .undefined, c⟩ callerProps cbA hA with
               ref := .vobj a fs, stateHandlers := .undefined }, 1)
  ∧ lookupProp (HotKeysWrapper.render
        { HotKeysWrapper.construct ⟨km, .undefined, c⟩ callerProps cbA hA with
            ref := .vobj a fs, stateHandlers := .undefined }).dispatchProps "handlers"
      = some .undefined
  ∧ (∀ addr, ({ HotKeysWrapper.construct ⟨km, .undefined, c⟩ callerProps cbA hA with
        ref := .vobj a fs, stateHandlers := .undefined }).stateHandlers
      ≠ .vobj addr []) := by
  refine ⟨?_, rfl, fun addr h => JSVal.noConfusion h⟩
  rw [runOps_reactLifecycle _ a fs n, (lookupProp_eq_none fs _).mpr hmiss]
  rfl

/-- Witness for C6: a target with no `hotKeyHandlers` field at all. -/
theorem missing_handlers_undefined_witness :
    lookupProp (HotKeysWrapper.render
        { HotKeysWrapper.construct ⟨.undefined, .undefined, 0⟩ [] 1 2 with
            ref := .vobj 3 [("other", .null)], stateHandlers := .undefined }).dispatchProps
      "handlers" = some .undefined :=
  (missing_handlers_undefined .undefined 0 [] 1 2 3 [("other", .null)] 0 (by decide)).2.1

/-- C7: for every actionKeyMap and a target declaring an empty handler map,
the whole mount lifecycle completes without fault and after activation the
dispatch unit receives the declared empty mapping as `handlers`. -/
theorem empty_handler_map_ok (km : JSVal) (c : Nat) (callerProps : JSObj)
    (cbA hA a ha : Nat) (fs : JSObj) (n : Nat)
    (hdecl : lookupProp fs "hotKeyHandlers" = some (.vobj ha [])) :
    runOps (HotKeysWrapper.construct ⟨km, .undefined, c⟩ callerProps cbA hA)
        (reactLifecycle (.vobj a fs) n) =
      .ok ({ HotKeysWrapper.construct ⟨km, .undefined, c⟩ callerProps cbA hA with
               ref := .vobj a fs, stateHandlers := .vobj ha [] }, 1)
  ∧ lookupProp (HotKeysWrapper.render
        { HotKeysWrapper.construct ⟨km, .undefined, c⟩ callerProps cbA hA with
            ref := .vobj a fs, stateHandlers := .vobj ha [] }).dispatchProps "handlers"
      = some (.vobj ha []) := by
  refine ⟨?_, rfl⟩
  rw [runOps_reactLifecycle _ a fs n, hdecl]
  rfl

/-- Witness for C7: a target declaring `hotKeyHandlers = {}` mounts without
fault under an arbitrary key map. -/
theorem empty_handler_map_ok_witness :
    lookupProp (HotKeysWrapper.render
        { HotKeysWrapper.construct ⟨.vstr "down", .undefined, 0⟩ [] 1 2 with
            ref := .vobj 3 [("hotKeyHandlers", .vobj 4 [])],
            stateHandlers := .vobj 4 [] }).dispatchProps "handlers"
      = some (.vobj 4 []) :=
  (empty_handler_map_ok (.vstr "down") 0 [] 1 2 3 4
      [("hotKeyHandlers", .vobj 4 [])] 0 rfl).2

/-- Counterexample for C9: the claim says the handle is not retained by the
wrapper after activation, but on a concrete mount the wrapper's `_ref`
field still holds the captured target handle once activation is done. -/
theorem ref_retained_after_activation :
    (runOps (HotKeysWrapper.construct ⟨.undefined, .undefined, 0⟩ [] 1 2)
        (reactLifecycle (.vobj 3 []) 0)).map (fun p => p.1.ref)
      = .ok (.vobj 3 []) := rfl

/-- C9 amended: the captured handle is read exactly once, at the activation
step (which reads only `hotKeyHandlers` and leaves the target object
unchanged); it is retained in the wrapper's private `_ref` field until
teardown, but no other operation reads it — `render` and every
non-activation step are independent of it — and it is never exposed in any
render output nor used to mutate the target. -/
theorem ref_read_only_at_activation (w : HotKeysWrapper) (v node : JSVal)
    (a : Nat) (fs : JSObj) :
    ({ w with ref := v } : HotKeysWrapper).render = w.render
  ∧ ((w.setRef node).stateHandlers = w.stateHandlers ∧ (w.setRef node).props = w.props
      ∧ (w.setRef node).cls = w.cls)
  ∧ (w.ref = .vobj a fs → w.componentDidMount =
      .ok { w with stateHandlers := (lookupProp fs "hotKeyHandlers").getD .undefined })
  ∧ step w .parentRender = .ok ⟨w, 0⟩ :=
  ⟨rfl, ⟨rfl, rfl, rfl⟩, componentDidMount_obj w a fs, rfl⟩

/-- Witness for the amended C9: activation on a concrete captured target
reads its (empty) handler map and leaves the handle in place unchanged. -/
theorem ref_read_only_at_activation_witness :
    ({ HotKeysWrapper.construct ⟨.undefined, .undefined, 0⟩ [] 1 2 with
        ref := .vobj 3 [] } : HotKeysWrapper).componentDidMount =
      .ok { HotKeysWrapper.construct ⟨.undefined, .undefined, 0⟩ [] 1 2 with
              ref := .vobj 3 [], stateHandlers := .undefined } :=
  (ref_read_only_at_activation
      { HotKeysWrapper.construct ⟨.undefined, .undefined, 0⟩ [] 1 2 with ref := .vobj 3 [] }
      .null .null 3 []).2.2.1 rfl

/-- C10: the activation-time read dereferences the captured handle with no
guard: with a `null` handle (or one never assigned, hence `undefined`),
`componentDidMount` — and with it the whole mount lifecycle — faults with a
`TypeError` instead of degrading silently, and it completes without fault
whenever a target instance was captured. -/
theorem activation_null_ref_faults (w : HotKeysWrapper) (n a : Nat) (fs : JSObj) :
    (w.ref = .null → w.componentDidMount = .error .typeError)
  ∧ (w.ref = .undefined → w.componentDidMount = .error .typeError)
  ∧ (w.ref = .vobj a fs → w.componentDidMount =
      .ok { w with stateHandlers := (lookupProp fs "hotKeyHandlers").getD .undefined })
  ∧ runOps w (reactLifecycle .null n) = .error .typeError := by
  refine ⟨?_, ?_, componentDidMount_obj w a fs, runOps_reactLifecycle_null w n⟩
  · intro h
    simp [HotKeysWrapper.componentDidMount, h, JSVal.getProp]
  · intro h
    simp [HotKeysWrapper.componentDidMount, h, JSVal.getProp]

/-- Witness for C10: a wrapper whose ref callback received `null` faults at
activation with a `TypeError`. -/
theorem activation_null_ref_faults_witness :
    ((HotKeysWrapper.construct ⟨.undefined, .undefined, 0⟩ [] 1 2).setRef
        .null).componentDidMount = .error .typeError :=
  (activation_null_ref_faults
      ((HotKeysWrapper.construct ⟨.undefined, .undefined, 0⟩ [] 1 2).setRef .null)
      0 0 []).1 rfl

end WithHotKeys
